import Mathlib

/-!
Verification of the medical-imaging Streamlit app (src/app.py) against its
natural-language specification.  The Python script is shallowly embedded:

* `google_custom_search` embeds the search client (src/app.py lines 9-19); the
  HTTP GET is an oracle `SearchParams → HttpResponse`, and the behaviour of the
  requests library call `response.raise_for_status()` (raise HTTPError exactly
  when 400 <= status < 600) is embedded as `raise_for_status`.
* `medical_agent` embeds the agent-construction gate (lines 62-71).
* `resized_dims` embeds the display resize (lines 134-139); Python float
  arithmetic is modelled as exact rational arithmetic, and `int(...)` applied to
  a nonnegative value is floor, hence Nat division.
* `analyzeHandler` embeds the analyze-button handler (lines 154-187): the
  temp-file write, the try/except/finally, the model call, the search call and
  every render, producing an ordered trace of external-effect events, the list
  of rendered UI elements and the final temp-file state.
* `scriptRun` embeds the page body (lines 123-189) around the handler,
  including the upload allow-list gate.
-/

/-- One search result item taken from the "items" array of the response body:
title, link, snippet. -/
structure ResultItem where
  title : String
  link : String
  snippet : String
deriving DecidableEq, Repr

/-- The query parameters of the GET request (src/app.py lines 11-16). -/
structure SearchParams where
  q : String
  key : String
  cx : String
  num : Nat
deriving DecidableEq, Repr

/-- An HTTP response, abstracted to its status code and already-parsed JSON
body, of which only the optional "items" field is relevant (none when the
field is absent). -/
structure HttpResponse where
  status : Nat
  items : Option (List ResultItem)
deriving DecidableEq, Repr

/-- Behaviour of requests.Response.raise_for_status, called at src/app.py
line 18: it raises HTTPError exactly when 400 <= status < 600 (client or
server error); every other status returns normally. -/
def raise_for_status (r : HttpResponse) : Except String Unit :=
  if 400 ≤ r.status ∧ r.status < 600 then
    Except.error ("HTTPError for status " ++ toString r.status)
  else
    Except.ok ()

/-- src/app.py lines 9-19: build the params, issue the GET (the oracle `http`),
raise for a bad status, and return response.json().get("items", []). -/
def google_custom_search (query api_key cse_id : String) (num_results : Nat)
    (http : SearchParams → HttpResponse) : Except String (List ResultItem) :=
  let params : SearchParams := { q := query, key := api_key, cx := cse_id, num := num_results }
  let response := http params
  match raise_for_status response with
  | Except.error e => Except.error e
  | Except.ok _ => Except.ok (response.items.getD [])

/-- The declared default of the num_results parameter (src/app.py line 9). -/
def defaultNumResults : Nat := 3

/-- Session state: the sidebar stores the user-supplied Gemini key here
(src/app.py lines 22-45); None before any key was entered. -/
structure SessionState where
  GEMINI_API_KEY : Option String
deriving DecidableEq, Repr

/-- Deployment secrets: st.secrets, of which the script reads only
SERPER_API_KEY; none when the key is absent from the secrets source. -/
structure Secrets where
  SERPER_API_KEY : Option String
deriving DecidableEq, Repr

/-- Python truthiness of an optional string: None and the empty string are
falsy, every other string is truthy. -/
def pyTruthy : Option String → Bool
  | none => false
  | some s => !(s == "")

/-- The Gemini model client constructed at src/app.py lines 65-68. -/
structure Gemini where
  api_key : String
  id : String
deriving DecidableEq, Repr

/-- The phi Agent constructed at src/app.py lines 64-71. -/
structure Agent where
  model : Gemini
  tools : Option Unit
  markdown : Bool
deriving DecidableEq, Repr

/-- src/app.py lines 62-71: medical_agent is None unless the session Gemini
key is truthy and SERPER_API_KEY is present in st.secrets, in which case the
Agent is constructed with the fixed model id and no tools. -/
def medical_agent (session : SessionState) (secrets : Secrets) : Option Agent :=
  if pyTruthy session.GEMINI_API_KEY && secrets.SERPER_API_KEY.isSome then
    some { model := { api_key := session.GEMINI_API_KEY.getD "", id := "gemini-2.0-flash-exp" },
           tools := none,
           markdown := true }
  else
    none

/-- src/app.py lines 134-139: aspect = width/height, new_width = 500,
new_height = int(new_width / aspect) = floor(500 * height / width); exact
rational model of the Python float arithmetic. -/
def resized_dims (width height : Nat) : Nat × Nat :=
  let new_width : Nat := 500
  (new_width, new_width * height / width)

/-- The fixed temp-file path of src/app.py line 155. -/
def imagePath : String := "temp_medical_image.png"

/-- The fixed multi-section analysis prompt of src/app.py lines 77-113.  Its
exact text is immaterial to every claim below; this constant stands for that
literal, abbreviated to its opening line. -/
def analysisQuery : String :=
  "You are a highly skilled medical imaging expert with extensive knowledge in radiology and diagnostic imaging."

/-- The hardcoded search query passed at src/app.py line 173. -/
def fixedSearchQuery : String := "Medical imaging abnormalities similar cases"

/-- The hardcoded engine-identifier literal passed at src/app.py line 175. -/
def fixedCseId : String := "custom-search-engine-id"

/-- External-effect events of one run of the page body, in the order the
script performs them. -/
inductive Event where
  | fileWrite (path : String) (data : List Nat)
  | modelCall (prompt : String) (images : List String)
  | searchCall (q key cx : String) (num : Nat)
  | fileRemove (path : String)
deriving DecidableEq, Repr

/-- Rendered UI elements, in the order the script emits them. -/
inductive RenderItem where
  | markdown (s : String)
  | caption (s : String)
  | errorBox (s : String)
  | write (s : String)
  | info (s : String)
  | image (dims : Nat × Nat)
deriving DecidableEq, Repr

/-- The state of the one file the script touches: whether the file at
`imagePath` exists on disk. -/
def FileSys := Bool

/-- open(image_path, "wb") followed by f.write(...) creates or truncates the
file: afterwards it exists. -/
def writeTempFile (_fs : FileSys) : FileSys := true

/-- os.path.exists on the fixed path. -/
def os_path_exists (fs : FileSys) : Bool := fs

/-- os.remove on the fixed path. -/
def os_remove (_fs : FileSys) : FileSys := false

/-- The finally block of src/app.py lines 185-187: remove the temp file when
it exists.  It runs on every exit path of the try/except. -/
def finallyBlock (fs : FileSys) : FileSys :=
  if os_path_exists fs then os_remove fs else fs

/-- src/app.py line 180: markdown link line, snippet, separator for one
search result. -/
def renderResult (r : ResultItem) : List RenderItem :=
  [RenderItem.markdown ("**[" ++ r.title ++ "](" ++ r.link ++ ")**"),
   RenderItem.write r.snippet,
   RenderItem.markdown "---"]

/-- The try/except body of src/app.py lines 160-184, as the pair
(effect events, rendered elements).  The outcome of medical_agent.run is the
parameter `modelRun` (ok with response.content, or error with the raised
message); the search GET is the oracle `http`.  Renders emitted before a
later exception are kept, as the real side effects are.  The catch-all
except clause turns either raised error into the single st.error render. -/
def tryExceptBlock (modelRun : Except String String) (serperKey : String)
    (http : SearchParams → HttpResponse) : List Event × List RenderItem :=
  match modelRun with
  | Except.error e =>
      ([Event.modelCall analysisQuery [imagePath]],
       [RenderItem.errorBox ("Analysis error: " ++ e)])
  | Except.ok content =>
      let preRender : List RenderItem :=
        [RenderItem.markdown "### 📋 Analysis Results",
         RenderItem.markdown "---",
         RenderItem.markdown content,
         RenderItem.markdown "---",
         RenderItem.caption "Note: This analysis is generated by AI and should be reviewed by a qualified healthcare professional."]
      let callEvents : List Event :=
        [Event.modelCall analysisQuery [imagePath],
         Event.searchCall fixedSearchQuery serperKey fixedCseId defaultNumResults]
      match google_custom_search fixedSearchQuery serperKey fixedCseId defaultNumResults http with
      | Except.error e =>
          (callEvents, preRender ++ [RenderItem.errorBox ("Analysis error: " ++ e)])
      | Except.ok search_results =>
          (callEvents,
           preRender ++ [RenderItem.markdown "### 🔗 Relevant Medical Literature"]
             ++ (search_results.map renderResult).flatten)

/-- The result of one run of the analyze-button handler. -/
structure ShellState where
  events : List Event
  render : List RenderItem
  tempFileExists : Bool
deriving DecidableEq, Repr

/-- src/app.py lines 154-187: write the uploaded bytes to the fixed temp
path, run the try/except body, then run the finally block on the file
state.  `fileBytes` is uploaded_file.getbuffer(). -/
def analyzeHandler (fileBytes : List Nat) (modelRun : Except String String)
    (serperKey : String) (http : SearchParams → HttpResponse) : ShellState :=
  let fs0 : FileSys := false
  let fs1 := writeTempFile fs0
  let t := tryExceptBlock modelRun serperKey http
  { events := Event.fileWrite imagePath fileBytes :: t.1 ++ [Event.fileRemove imagePath],
    render := t.2,
    tempFileExists := finallyBlock fs1 }

/-- The upload allow-list passed to st.file_uploader at src/app.py line 126. -/
def allowedUploadTypes : List String := ["jpg", "jpeg", "png", "dicom"]

/-- An uploaded file: its declared extension, decoded pixel dimensions and
raw bytes. -/
structure UploadedFile where
  ext : String
  width : Nat
  height : Nat
  bytes : List Nat
deriving DecidableEq, Repr

/-- Modelled from the spec: the enforcement of the type allow-list lives in
the Streamlit file_uploader widget, library code outside src/; per the spec,
accepted formats are a fixed allow-list by file extension, so a file whose
extension is not in the list cannot be uploaded and the widget yields no
file. -/
def st_file_uploader (upload : Option UploadedFile) : Option UploadedFile :=
  match upload with
  | none => none
  | some f => if f.ext ∈ allowedUploadTypes then some f else none

/-- src/app.py lines 123-189: the page body below the sidebar.  When the
uploader yields a file, the display copy is rendered at the resized
dimensions and, if the analyze button was pressed, the handler runs;
otherwise only the info prompt is rendered and no effect event occurs. -/
def scriptRun (upload : Option UploadedFile) (analyzePressed : Bool)
    (modelRun : Except String String) (serperKey : String)
    (http : SearchParams → HttpResponse) : ShellState :=
  match st_file_uploader upload with
  | none =>
      { events := [],
        render := [RenderItem.info "👆 Please upload a medical image to begin analysis."],
        tempFileExists := false }
  | some f =>
      let displayed := RenderItem.image (resized_dims f.width f.height)
      if analyzePressed then
        let s := analyzeHandler f.bytes modelRun serperKey http
        { s with render := displayed :: s.render }
      else
        { events := [], render := [displayed], tempFileExists := false }

/-- Claim C2, counterexample: the claim says every non-2xx status makes the
call raise and return no results, but raise_for_status raises only for
statuses 400-599.  At status 304 (non-2xx) with an items body, the call
returns the parsed items instead of raising. -/
theorem google_custom_search_non2xx_counterexample :
    ¬ (200 ≤ 304 ∧ 304 < 300)
      ∧ google_custom_search fixedSearchQuery "SERPER" fixedCseId 3
          (fun _ => { status := 304, items := some [{ title := "A", link := "http://x", snippet := "s" }] })
        = Except.ok [{ title := "A", link := "http://x", snippet := "s" }] :=
  ⟨by decide, rfl⟩

/-- Claim C2 (amended): for every response whose HTTP status is in 400-599
(the statuses raise_for_status treats as failures, which include the 403 of
the spec example), the search call fails with an explicit raised error and
returns no result sequence at all, whatever the body holds. -/
theorem google_custom_search_raises_on_4xx_5xx (s : Nat) (h : 400 ≤ s ∧ s < 600)
    (body : Option (List ResultItem)) (q k c : String) (n : Nat) :
    google_custom_search q k c n (fun _ => { status := s, items := body })
      = Except.error ("HTTPError for status " ++ toString s) := by
  simp [google_custom_search, raise_for_status, h]

/-- Witness for the amended claim C2 at the concrete status 403 of the spec
example. -/
theorem google_custom_search_raises_on_4xx_5xx_witness :
    google_custom_search fixedSearchQuery "SERPER" fixedCseId 3
        (fun _ => { status := 403, items := some [{ title := "A", link := "http://x", snippet := "s" }] })
      = Except.error ("HTTPError for status " ++ toString 403) :=
  google_custom_search_raises_on_4xx_5xx 403 (by decide)
    (some [{ title := "A", link := "http://x", snippet := "s" }]) fixedSearchQuery "SERPER" fixedCseId 3

/-- Claim C3: for every 2xx response, a body whose items field holds a list
yields exactly that list in order, and a body without the field yields the
empty sequence. -/
theorem google_custom_search_items_2xx (s : Nat) (h : 200 ≤ s ∧ s < 300)
    (its : List ResultItem) (q k c : String) (n : Nat) :
    google_custom_search q k c n (fun _ => { status := s, items := some its }) = Except.ok its
      ∧ google_custom_search q k c n (fun _ => { status := s, items := none }) = Except.ok [] := by
  have hno : ¬ (400 ≤ s ∧ s < 600) := by omega
  constructor <;> simp [google_custom_search, raise_for_status, hno]

/-- Witness for claim C3 at the concrete response of the spec example. -/
theorem google_custom_search_items_2xx_witness :
    google_custom_search fixedSearchQuery "SERPER" fixedCseId 3
        (fun _ => { status := 200, items := some [{ title := "A", link := "http://x", snippet := "s" }] })
      = Except.ok [{ title := "A", link := "http://x", snippet := "s" }]
    ∧ google_custom_search fixedSearchQuery "SERPER" fixedCseId 3
        (fun _ => { status := 200, items := none }) = Except.ok [] :=
  google_custom_search_items_2xx 200 (by decide)
    [{ title := "A", link := "http://x", snippet := "s" }] fixedSearchQuery "SERPER" fixedCseId 3

/-- Claim C4: for every session state and secrets configuration, the report
agent is constructed if and only if the user-supplied Gemini key is present
and non-empty (Python truthiness) and SERPER_API_KEY is present in the
secrets. -/
theorem medical_agent_iff_keys (session : SessionState) (secrets : Secrets) :
    (medical_agent session secrets).isSome
      = (pyTruthy session.GEMINI_API_KEY && secrets.SERPER_API_KEY.isSome) := by
  cases h : pyTruthy session.GEMINI_API_KEY && secrets.SERPER_API_KEY.isSome <;>
    simp [medical_agent, h]

/-- Claim C7, counterexample: the claim asks for dimensions (500, 500*h/w)
with exactly the original width-to-height ratio, but int() truncates: at
width 300, height 200 the code produces height 333, and 333 * 300 is not
200 * 500, so the ratio is not preserved exactly. -/
theorem resized_dims_ratio_counterexample :
    resized_dims 300 200 = (500, 333) ∧ (resized_dims 300 200).2 * 300 ≠ 200 * 500 := by
  decide

/-- Claim C7 (amended): for every image with positive width, the display copy
has dimensions (500, floor (500 * height / width)); the height is the floor
of the exact aspect-preserving value, so the ratio is preserved up to the
integer truncation of int(). -/
theorem resized_dims_floor (w h : Nat) (hw : 0 < w) :
    resized_dims w h = (500, 500 * h / w)
      ∧ (500 * h / w) * w ≤ 500 * h
      ∧ 500 * h < (500 * h / w + 1) * w := by
  refine ⟨rfl, Nat.div_mul_le_self _ _, ?_⟩
  have h1 : w * (500 * h / w) + 500 * h % w = 500 * h := Nat.div_add_mod _ _
  have h2 : 500 * h % w < w := Nat.mod_lt _ hw
  calc 500 * h = w * (500 * h / w) + 500 * h % w := h1.symm
    _ < w * (500 * h / w) + w := Nat.add_lt_add_left h2 _
    _ = (500 * h / w + 1) * w := by ring

/-- Witness for the amended claim C7 at the concrete image size 300 x 200. -/
theorem resized_dims_floor_witness :
    resized_dims 300 200 = (500, 500 * 200 / 300)
      ∧ (500 * 200 / 300) * 300 ≤ 500 * 200
      ∧ 500 * 200 < (500 * 200 / 300 + 1) * 300 :=
  resized_dims_floor 300 200 (by decide)

/-- Claim C1: for every analysis trigger, whatever the model call and the
search call do, the uploaded bytes are written to the fixed path
"temp_medical_image.png" as the first effect, the model call happens
afterwards, the last effect removes that file, and when the handler returns
the file no longer exists. -/
theorem analyzeHandler_temp_file_cleanup (fileBytes : List Nat)
    (modelRun : Except String String) (serperKey : String)
    (http : SearchParams → HttpResponse) :
    (analyzeHandler fileBytes modelRun serperKey http).events.head?
        = some (Event.fileWrite imagePath fileBytes)
      ∧ Event.modelCall analysisQuery [imagePath]
          ∈ (analyzeHandler fileBytes modelRun serperKey http).events
      ∧ (analyzeHandler fileBytes modelRun serperKey http).events.getLast?
          = some (Event.fileRemove imagePath)
      ∧ (analyzeHandler fileBytes modelRun serperKey http).tempFileExists = false
      ∧ imagePath = "temp_medical_image.png" := by
  cases modelRun with
  | error e =>
      refine ⟨rfl, ?_, rfl, rfl, rfl⟩
      simp [analyzeHandler, tryExceptBlock]
  | ok t =>
      cases hs : google_custom_search fixedSearchQuery serperKey fixedCseId defaultNumResults http with
      | error e =>
          refine ⟨?_, ?_, ?_, ?_, rfl⟩ <;>
            simp [analyzeHandler, tryExceptBlock, hs, finallyBlock, writeTempFile,
              os_path_exists, os_remove]
      | ok its =>
          refine ⟨?_, ?_, ?_, ?_, rfl⟩ <;>
            simp [analyzeHandler, tryExceptBlock, hs, finallyBlock, writeTempFile,
              os_path_exists, os_remove]

/-- Claim C5: for every analysis trigger in which the model call raises with
message e, the handler renders exactly one user-visible element, the single
error message, and returns normally (the embedding of the catch-all except
clause is a total function: nothing propagates). -/
theorem analyzeHandler_model_error_single_message (e : String) (fileBytes : List Nat)
    (serperKey : String) (http : SearchParams → HttpResponse) :
    (analyzeHandler fileBytes (Except.error e) serperKey http).render
      = [RenderItem.errorBox ("Analysis error: " ++ e)] := rfl

/-- Claim C6: the model call strictly precedes the search call.  When the
model call raises, the event trace is exactly write, model call, remove (no
search call occurs); when it succeeds, the trace is exactly write, model
call, search call, remove, whatever the search outcome. -/
theorem analyzeHandler_search_after_model (fileBytes : List Nat) (serperKey : String)
    (http : SearchParams → HttpResponse) :
    (∀ e : String, (analyzeHandler fileBytes (Except.error e) serperKey http).events
        = [Event.fileWrite imagePath fileBytes,
           Event.modelCall analysisQuery [imagePath],
           Event.fileRemove imagePath])
      ∧ ∀ t : String, (analyzeHandler fileBytes (Except.ok t) serperKey http).events
        = [Event.fileWrite imagePath fileBytes,
           Event.modelCall analysisQuery [imagePath],
           Event.searchCall fixedSearchQuery serperKey fixedCseId defaultNumResults,
           Event.fileRemove imagePath] := by
  refine ⟨fun e => rfl, fun t => ?_⟩
  cases hs : google_custom_search fixedSearchQuery serperKey fixedCseId defaultNumResults http with
  | error e => simp [analyzeHandler, tryExceptBlock, hs]
  | ok its => simp [analyzeHandler, tryExceptBlock, hs]

/-- Claim C9: for every successful model call returning content t, the
rendered report contains t verbatim: the first five rendered elements are
the two separators, the header, the caption and, at position 2, the content
string passed unmodified to the markdown renderer. -/
theorem analyzeHandler_renders_content_verbatim (t : String) (fileBytes : List Nat)
    (serperKey : String) (http : SearchParams → HttpResponse) :
    (analyzeHandler fileBytes (Except.ok t) serperKey http).render.take 5
        = [RenderItem.markdown "### 📋 Analysis Results",
           RenderItem.markdown "---",
           RenderItem.markdown t,
           RenderItem.markdown "---",
           RenderItem.caption "Note: This analysis is generated by AI and should be reviewed by a qualified healthcare professional."]
      ∧ (analyzeHandler fileBytes (Except.ok t) serperKey http).render[2]?
        = some (RenderItem.markdown t) := by
  cases hs : google_custom_search fixedSearchQuery serperKey fixedCseId defaultNumResults http with
  | error e => constructor <;> simp [analyzeHandler, tryExceptBlock, hs]
  | ok its => constructor <;> simp [analyzeHandler, tryExceptBlock, hs]

/-- Claim C10: every search call the handler makes carries the hardcoded
query string, the serper key from the secrets, the hardcoded placeholder
engine id, and the default of 3 results, for every model outcome, image and
user input. -/
theorem analyzeHandler_searchCall_args_fixed (fileBytes : List Nat)
    (modelRun : Except String String) (serperKey : String)
    (http : SearchParams → HttpResponse) (q key c : String) (n : Nat)
    (hmem : Event.searchCall q key c n
      ∈ (analyzeHandler fileBytes modelRun serperKey http).events) :
    q = fixedSearchQuery ∧ key = serperKey ∧ c = fixedCseId ∧ n = defaultNumResults
      ∧ fixedSearchQuery = "Medical imaging abnormalities similar cases"
      ∧ fixedCseId = "custom-search-engine-id"
      ∧ defaultNumResults = 3 := by
  cases modelRun with
  | error e => simp [analyzeHandler, tryExceptBlock] at hmem
  | ok t =>
      cases hs : google_custom_search fixedSearchQuery serperKey fixedCseId defaultNumResults http with
      | error e =>
          simp [analyzeHandler, tryExceptBlock, hs] at hmem
          exact ⟨hmem.1, hmem.2.1, hmem.2.2.1, hmem.2.2.2, rfl, rfl, rfl⟩
      | ok its =>
          simp [analyzeHandler, tryExceptBlock, hs] at hmem
          exact ⟨hmem.1, hmem.2.1, hmem.2.2.1, hmem.2.2.2, rfl, rfl, rfl⟩

/-- Witness for claim C10: at a concrete trigger whose model call succeeds,
the search-call event with the three fixed arguments is in the trace. -/
theorem analyzeHandler_searchCall_args_fixed_witness :
    "Medical imaging abnormalities similar cases" = fixedSearchQuery
      ∧ "SERPER" = "SERPER"
      ∧ "custom-search-engine-id" = fixedCseId
      ∧ 3 = defaultNumResults
      ∧ fixedSearchQuery = "Medical imaging abnormalities similar cases"
      ∧ fixedCseId = "custom-search-engine-id"
      ∧ defaultNumResults = 3 :=
  analyzeHandler_searchCall_args_fixed [] (Except.ok "T") "SERPER"
    (fun _ => { status := 200, items := none })
    "Medical imaging abnormalities similar cases" "SERPER" "custom-search-engine-id" 3
    (by decide)

/-- Claim C8: for every uploaded file whose extension is outside the
allow-list jpg, jpeg, png, dicom, the upload is rejected by the shell and
the page run performs no effect event at all, in particular no model call
and no search call. -/
theorem scriptRun_rejects_unlisted_ext (f : UploadedFile) (analyzePressed : Bool)
    (modelRun : Except String String) (serperKey : String)
    (http : SearchParams → HttpResponse)
    (hext : f.ext ∉ allowedUploadTypes) :
    (scriptRun (some f) analyzePressed modelRun serperKey http).events = [] := by
  simp [scriptRun, st_file_uploader, hext]

/-- Witness for claim C8: a gif upload with the analyze button pressed and a
model call that would succeed still produces no effect event. -/
theorem scriptRun_rejects_unlisted_ext_witness :
    (scriptRun (some { ext := "gif", width := 300, height := 200, bytes := [] }) true
        (Except.ok "T") "SERPER" (fun _ => { status := 200, items := none })).events = [] :=
  scriptRun_rejects_unlisted_ext { ext := "gif", width := 300, height := 200, bytes := [] }
    true (Except.ok "T") "SERPER" (fun _ => { status := 200, items := none }) (by decide)
